import Mathlib

/-!
Verification of the Three.js point-cloud background module
(`src/three-scene.js`): the camera-orbit controller, its input-event
handlers, the animation loop, the fallback point-cloud generator, and the
init/teardown entry points, shallowly embedded in Lean 4.

Numeric state is modelled over ℚ (all constants in the source — 0.005,
0.003, 0.08, 0.05, 0.1, 1.4, 20, 120, 2000 — are exact rationals);
trigonometric camera positioning and the fallback generator are modelled
over ℝ. JS timers (`setTimeout` / `clearTimeout`) are modelled explicitly:
each `setTimeout` appends a `TimerEntry` carrying a fresh id and its
scheduling time, the module variable `interactionTimeout` holds the most
recently returned handle, and `clearTimeout` removes only the entry the
handle refers to — exactly the JS semantics.
-/

namespace ThreeScene

/-- One pending `setTimeout` callback: its handle id and the time (ms)
at which it was scheduled. Every timer in this module has delay 2000 ms,
so it may fire at any time `≥ scheduledAt + 2000`. -/
structure TimerEntry where
  id : Nat
  scheduledAt : Nat
deriving DecidableEq

/-- The module-level mutable state of `three-scene.js` that the input
handlers and the animation loop read and write. `cameraComputedFrom`
records the `(cameraTheta, cameraPhi, currentCameraDistance)` triple from
which `updateCameraPosition()` last recomputed the camera, so "the camera
was repositioned immediately" is expressible; the actual Cartesian
position is `updateCameraPosition` applied to that triple.
`pendingTimers` is the set of live timers; `interactionTimeout` is the JS
variable of that name (the last `setTimeout` handle). -/
structure ControllerState where
  isUserInteracting : Bool
  isDragging : Bool
  orbitEnabled : Bool
  cameraTheta : ℚ
  cameraPhi : ℚ
  targetCameraDistance : ℚ
  currentCameraDistance : ℚ
  previousMouseX : ℚ
  previousMouseY : ℚ
  time : ℚ
  cameraComputedFrom : ℚ × ℚ × ℚ
  pendingTimers : List TimerEntry
  interactionTimeout : Option Nat
  nextTimerId : Nat
  now : Nat
deriving DecidableEq

/-- The initial values of the module-level variables in `three-scene.js`:
`cameraTheta = 0`, `cameraPhi = 0.4`, both distances `60`,
`isUserInteracting = isDragging = false`, `orbitEnabled = true`, no
pending timer. -/
def initialState : ControllerState :=
  { isUserInteracting := false
    isDragging := false
    orbitEnabled := true
    cameraTheta := 0
    cameraPhi := 2/5
    targetCameraDistance := 60
    currentCameraDistance := 60
    previousMouseX := 0
    previousMouseY := 0
    time := 0
    cameraComputedFrom := (0, 2/5, 60)
    pendingTimers := []
    interactionTimeout := none
    nextTimerId := 0
    now := 0 }

/-- JS `clearTimeout(h)`: removes the timer the handle refers to, if it is
still pending; `clearTimeout(null)` and clearing an already-fired timer
are no-ops. Timers NOT referred to by `h` are untouched. -/
def clearTimeoutJs (h : Option Nat) (ts : List TimerEntry) : List TimerEntry :=
  match h with
  | none => ts
  | some i => ts.filter (fun e => e.id != i)

/-- `cameraPhi = Math.max(0.1, Math.min(1.4, cameraPhi))` from
`onMouseMove` / `onTouchMove`. -/
def clampPhi (v : ℚ) : ℚ :=
  max (1/10) (min (14/10) v)

/-- `updateCameraPosition()`'s effect on module state: the camera is
recomputed from the current `(cameraTheta, cameraPhi,
currentCameraDistance)` triple. -/
def updateCameraPositionState (s : ControllerState) : ControllerState :=
  { s with cameraComputedFrom := (s.cameraTheta, s.cameraPhi, s.currentCameraDistance) }

/-- `onMouseDown(event)`: sets `isDragging` and `isUserInteracting`,
records the pointer position, and cancels the timer referenced by
`interactionTimeout`. -/
def onMouseDown (x y : ℚ) (s : ControllerState) : ControllerState :=
  { s with isDragging := true
           isUserInteracting := true
           previousMouseX := x
           previousMouseY := y
           pendingTimers := clearTimeoutJs s.interactionTimeout s.pendingTimers }

/-- `onMouseMove(event)`: early-returns unless dragging; otherwise orbits
by the pointer delta (`cameraTheta -= deltaX * 0.005`,
`cameraPhi += deltaY * 0.003` clamped to [0.1, 1.4]), recomputes the
camera immediately, and stores the new pointer position. -/
def onMouseMove (x y : ℚ) (s : ControllerState) : ControllerState :=
  if !s.isDragging then s
  else
    let deltaX := x - s.previousMouseX
    let deltaY := y - s.previousMouseY
    let s1 := { s with cameraTheta := s.cameraTheta - deltaX * (5/1000)
                       cameraPhi := clampPhi (s.cameraPhi + deltaY * (3/1000)) }
    let s2 := updateCameraPositionState s1
    { s2 with previousMouseX := x, previousMouseY := y }

/-- `onMouseUp()` (also bound to `mouseleave`): clears `isDragging`,
cancels the referenced timer, and schedules a fresh 2000 ms cooldown,
storing its handle in `interactionTimeout`. -/
def onMouseUp (s : ControllerState) : ControllerState :=
  { s with isDragging := false
           pendingTimers := clearTimeoutJs s.interactionTimeout s.pendingTimers
                              ++ [⟨s.nextTimerId, s.now⟩]
           interactionTimeout := some s.nextTimerId
           nextTimerId := s.nextTimerId + 1 }

/-- `onWheel(event)`: returns untouched unless `ctrlKey || metaKey`; when
a modifier is held, marks interacting, cancels the referenced timer,
adds `deltaY * 0.05` to `targetCameraDistance`, clamps it to [20, 120],
and schedules a fresh 2000 ms cooldown. -/
def onWheel (deltaY : ℚ) (ctrlKey metaKey : Bool) (s : ControllerState) : ControllerState :=
  if !ctrlKey && !metaKey then s
  else
    { s with isUserInteracting := true
             targetCameraDistance :=
               max 20 (min 120 (s.targetCameraDistance + deltaY * (5/100)))
             pendingTimers := clearTimeoutJs s.interactionTimeout s.pendingTimers
                                ++ [⟨s.nextTimerId, s.now⟩]
             interactionTimeout := some s.nextTimerId
             nextTimerId := s.nextTimerId + 1 }

/-- `onTouchStart(event)`: acts only when exactly one touch is present;
then it behaves like `onMouseDown` (drag start, cancel referenced timer,
record position). A multi-touch start is a complete no-op. -/
def onTouchStart (touches : Nat) (x y : ℚ) (s : ControllerState) : ControllerState :=
  if touches == 1 then
    { s with isDragging := true
             isUserInteracting := true
             previousMouseX := x
             previousMouseY := y
             pendingTimers := clearTimeoutJs s.interactionTimeout s.pendingTimers }
  else s

/-- `onTouchMove(event)`: early-returns unless dragging with exactly one
touch; otherwise identical orbit update to `onMouseMove`. -/
def onTouchMove (touches : Nat) (x y : ℚ) (s : ControllerState) : ControllerState :=
  if !s.isDragging || touches != 1 then s
  else
    let deltaX := x - s.previousMouseX
    let deltaY := y - s.previousMouseY
    let s1 := { s with cameraTheta := s.cameraTheta - deltaX * (5/1000)
                       cameraPhi := clampPhi (s.cameraPhi + deltaY * (3/1000)) }
    let s2 := updateCameraPositionState s1
    { s2 with previousMouseX := x, previousMouseY := y }

/-- `onTouchEnd()`: clears `isDragging` and schedules a fresh 2000 ms
cooldown. Unlike `onMouseUp`, the source does NOT call `clearTimeout`
first, so any previously pending timer stays live alongside the new one. -/
def onTouchEnd (s : ControllerState) : ControllerState :=
  { s with isDragging := false
           pendingTimers := s.pendingTimers ++ [⟨s.nextTimerId, s.now⟩]
           interactionTimeout := some s.nextTimerId
           nextTimerId := s.nextTimerId + 1 }

/-- `setOrbitEnabled(enabled)`: stores the flag (and, in the DOM, toggles
`pointer-events` / cursor on the canvas — modelled by gating input events
in `step`). -/
def setOrbitEnabled (enabled : Bool) (s : ControllerState) : ControllerState :=
  { s with orbitEnabled := enabled }

/-- One pass of the `animate()` loop body (rendering aside): advances
`time` by 0.016, auto-rotates `cameraTheta` by 0.002 when not
interacting (recomputing the camera), then unconditionally smooths
`currentCameraDistance` toward `targetCameraDistance` by factor 0.08 and
recomputes the camera again. -/
def animateStep (s : ControllerState) : ControllerState :=
  let s0 := { s with time := s.time + 16/1000 }
  let s1 := if s0.isUserInteracting then s0
            else updateCameraPositionState { s0 with cameraTheta := s0.cameraTheta + 2/1000 }
  let s2 := { s1 with currentCameraDistance :=
                s1.currentCameraDistance
                  + (s1.targetCameraDistance - s1.currentCameraDistance) * (8/100) }
  updateCameraPositionState s2

/-- A pending `setTimeout` callback firing. The only callbacks this
module schedules all run `isUserInteracting = false`. The timer must be
due (at least 2000 ms after scheduling) and still pending; firing removes
it. Firing an unknown or not-yet-due id is a no-op. -/
def fireTimer (i : Nat) (s : ControllerState) : ControllerState :=
  match s.pendingTimers.find? (fun e => e.id == i) with
  | some e =>
      if e.scheduledAt + 2000 ≤ s.now then
        { s with isUserInteracting := false
                 pendingTimers := s.pendingTimers.filter (fun e => e.id != i) }
      else s
  | none => s

/-- Wall-clock time advancing by `dt` milliseconds. -/
def elapse (dt : Nat) (s : ControllerState) : ControllerState :=
  { s with now := s.now + dt }

/-- The observable events of the controller: the DOM input events its
listeners receive, the external `setOrbitEnabled` call, one animation
frame, a timer callback firing, and time passing. -/
inductive Event where
  | mouseDown (x y : ℚ)
  | mouseMove (x y : ℚ)
  | mouseUp
  | wheel (deltaY : ℚ) (ctrlKey metaKey : Bool)
  | touchStart (touches : Nat) (x y : ℚ)
  | touchMove (touches : Nat) (x y : ℚ)
  | touchEnd
  | setOrbit (enabled : Bool)
  | animateFrame
  | timerFire (i : Nat)
  | timePasses (dt : Nat)
deriving DecidableEq

/-- The transition function. When `orbitEnabled = false` the canvas has
`pointer-events: none`, so no mouse/touch/wheel event reaches the
handlers — those events are no-ops. Timer callbacks, animation frames and
time are unaffected by the flag. -/
def step (e : Event) (s : ControllerState) : ControllerState :=
  match e with
  | .mouseDown x y => if s.orbitEnabled then onMouseDown x y s else s
  | .mouseMove x y => if s.orbitEnabled then onMouseMove x y s else s
  | .mouseUp => if s.orbitEnabled then onMouseUp s else s
  | .wheel d c m => if s.orbitEnabled then onWheel d c m s else s
  | .touchStart n x y => if s.orbitEnabled then onTouchStart n x y s else s
  | .touchMove n x y => if s.orbitEnabled then onTouchMove n x y s else s
  | .touchEnd => if s.orbitEnabled then onTouchEnd s else s
  | .setOrbit b => setOrbitEnabled b s
  | .animateFrame => animateStep s
  | .timerFire i => fireTimer i s
  | .timePasses dt => elapse dt s

/-- Runs a sequence of events from a state. -/
def run (events : List Event) (s : ControllerState) : ControllerState :=
  events.foldl (fun st e => step e st) s

/-- A Three.js camera as this module uses it: a Cartesian position and
the point `camera.lookAt` was last given. -/
structure Camera where
  position : ℝ × ℝ × ℝ
  lookTarget : ℝ × ℝ × ℝ

/-- `updateCameraPosition()` over ℝ: spherical-to-Cartesian conversion
(`x = d·cos φ·sin θ`, `y = d·sin φ + 5`, `z = d·cos φ·cos θ`) followed by
`camera.lookAt(0, 0, 0)`. -/
noncomputable def updateCameraPosition (theta phi dist : ℝ) : Camera :=
  { position := (dist * Real.cos phi * Real.sin theta,
                 dist * Real.sin phi + 5,
                 dist * Real.cos phi * Real.cos theta)
    lookTarget := (0, 0, 0) }

/-- One point produced by `createFallbackPointCloud()`, with the
generated cylindrical radius kept alongside the Cartesian position and
the height-gradient color, as computed in the loop body. -/
structure FallbackPoint where
  x : ℝ
  y : ℝ
  z : ℝ
  radius : ℝ
  colorR : ℝ
  colorG : ℝ
  colorB : ℝ

/-- The `i`-th iteration of the generator loop in
`createFallbackPointCloud()`. `rand` is the stream of `Math.random()`
draws (each in [0, 1)); iteration `i` consumes draws `3i`, `3i+1`,
`3i+2` for angle, radius and height. -/
noncomputable def fallbackPoint (rand : Nat → ℝ) (i : Nat) : FallbackPoint :=
  let angle := rand (3 * i) * Real.pi * 2
  let radius := 5 + rand (3 * i + 1) * 25
  let height := (rand (3 * i + 2) - 1/2) * 20
  let t := (height + 10) / 20
  { x := Real.cos angle * radius
    y := height
    z := Real.sin angle * radius
    radius := radius
    colorR := 486/1000 * t + 3/10 * (1 - t)
    colorG := 227/1000 * t + 3/10 * (1 - t)
    colorB := 929/1000 * t + 3/10 * (1 - t) }

/-- `createFallbackPointCloud()`: the 10000-point synthetic annular cloud
built when the PLY fetch fails. -/
noncomputable def createFallbackPointCloud (rand : Nat → ℝ) : List FallbackPoint :=
  (List.range 10000).map (fallbackPoint rand)

/-- Distance of a generated point from the vertical (y) axis. -/
noncomputable def axisDistance (p : FallbackPoint) : ℝ :=
  Real.sqrt (p.x ^ 2 + p.z ^ 2)

/-- The resources `initThreeScene()` constructs and `destroyThreeScene()`
releases: scene, camera, renderer, the `requestAnimationFrame` loop, the
canvas input listeners, the window resize listener, and whether the PLY
load was started. -/
structure SceneResources where
  sceneConstructed : Bool
  cameraConstructed : Bool
  rendererConstructed : Bool
  animationRunning : Bool
  canvasListenersRegistered : Bool
  windowListenerRegistered : Bool
  loadRequested : Bool
deriving DecidableEq

/-- The module before `initThreeScene()` runs: nothing constructed. -/
def emptyResources : SceneResources :=
  { sceneConstructed := false
    cameraConstructed := false
    rendererConstructed := false
    animationRunning := false
    canvasListenersRegistered := false
    windowListenerRegistered := false
    loadRequested := false }

/-- `initThreeScene()`: `if (!canvas) return` — when the canvas element
is absent nothing happens at all; otherwise it builds scene, camera and
renderer, starts the PLY load and the animation loop, and registers the
window-resize plus eight canvas listeners. -/
def initThreeScene (canvasPresent : Bool) (r : SceneResources) : SceneResources :=
  if !canvasPresent then r
  else
    { sceneConstructed := true
      cameraConstructed := true
      rendererConstructed := true
      animationRunning := true
      canvasListenersRegistered := true
      windowListenerRegistered := true
      loadRequested := true }

/-- `destroyThreeScene()`: cancels the animation frame if one is
scheduled, clears the referenced interaction timer, removes the canvas
listeners when the canvas element is still present, removes the window
listener, and disposes scene resources. Every branch guards on the
resource being present, so it is safe on an uninitialized module. -/
def destroyThreeScene (canvasPresent : Bool) (r : SceneResources) (c : ControllerState) :
    SceneResources × ControllerState :=
  ({ r with animationRunning := false
            canvasListenersRegistered :=
              if canvasPresent then false else r.canvasListenersRegistered
            windowListenerRegistered := false },
   { c with pendingTimers := clearTimeoutJs c.interactionTimeout c.pendingTimers })

/-- C1: for every `(theta, phi, distance)` triple, `updateCameraPosition`
places the camera at exactly `(d·cos φ·sin θ, d·sin φ + 5,
d·cos φ·cos θ)` and aims it at the origin `(0,0,0)`; consequently
`x² + z² = (d·cos φ)²` and the camera height is `d·sin φ` plus the
vertical offset 5. -/
theorem updateCameraPosition_spec (theta phi dist : ℝ) :
    (updateCameraPosition theta phi dist).position =
      (dist * Real.cos phi * Real.sin theta,
       dist * Real.sin phi + 5,
       dist * Real.cos phi * Real.cos theta) ∧
    (updateCameraPosition theta phi dist).lookTarget = (0, 0, 0) ∧
    (updateCameraPosition theta phi dist).position.1 ^ 2
        + (updateCameraPosition theta phi dist).position.2.2 ^ 2
      = (dist * Real.cos phi) ^ 2 ∧
    (updateCameraPosition theta phi dist).position.2.1 = dist * Real.sin phi + 5 := by
  refine ⟨rfl, rfl, ?_, rfl⟩
  show (dist * Real.cos phi * Real.sin theta) ^ 2
      + (dist * Real.cos phi * Real.cos theta) ^ 2 = (dist * Real.cos phi) ^ 2
  calc (dist * Real.cos phi * Real.sin theta) ^ 2
        + (dist * Real.cos phi * Real.cos theta) ^ 2
      = (dist * Real.cos phi) ^ 2 * (Real.sin theta ^ 2 + Real.cos theta ^ 2) := by ring
    _ = (dist * Real.cos phi) ^ 2 := by rw [Real.sin_sq_add_cos_sq, mul_one]

/-- C3: every animation frame replaces `currentCameraDistance` by
`current + (target - current) * 0.08`; for any pair `(c, t)` this value
lies between `c` and `t` (it approaches the target monotonically and
never crosses or overshoots it) and its distance to the target is
exactly `0.92 · |c - t|`. -/
theorem animate_distance_smoothing (s : ControllerState) (c t : ℚ) :
    (step Event.animateFrame s).currentCameraDistance =
      s.currentCameraDistance
        + (s.targetCameraDistance - s.currentCameraDistance) * (8/100) ∧
    min c t ≤ c + (t - c) * (8/100) ∧
    c + (t - c) * (8/100) ≤ max c t ∧
    |c + (t - c) * (8/100) - t| = (92/100) * |c - t| := by
  refine ⟨?_, ?_, ?_, ?_⟩
  · simp only [step, animateStep, updateCameraPositionState]
    split <;> rfl
  · rcases le_total c t with h | h
    · rw [min_eq_left h]; nlinarith
    · rw [min_eq_right h]; nlinarith
  · rcases le_total c t with h | h
    · rw [max_eq_right h]; nlinarith
    · rw [max_eq_left h]; nlinarith
  · have hr : c + (t - c) * (8/100) - t = (92/100) * (c - t) := by ring
    rw [hr, abs_mul, abs_of_pos (by norm_num : (0:ℚ) < 92/100)]

/-- C6: a wheel event without Ctrl/Meta leaves the entire state unchanged
(so `targetCameraDistance` is untouched and `isUserInteracting` is never
set); with a modifier held, the handler sets `isUserInteracting`, adds
`deltaY * 0.05` to `targetCameraDistance`, clamps it to [20, 120], and
schedules the standard 2000 ms cooldown (replacing the referenced
timer); in particular `deltaY = 200` from `targetCameraDistance = 60`
yields exactly 70. -/
theorem onWheel_spec (s : ControllerState) (deltaY : ℚ) (c m : Bool) :
    onWheel deltaY false false s = s ∧
    ((c || m) = true →
      (onWheel deltaY c m s).isUserInteracting = true ∧
      (onWheel deltaY c m s).targetCameraDistance =
        max 20 (min 120 (s.targetCameraDistance + deltaY * (5/100))) ∧
      (onWheel deltaY c m s).pendingTimers =
        clearTimeoutJs s.interactionTimeout s.pendingTimers
          ++ [⟨s.nextTimerId, s.now⟩] ∧
      (onWheel deltaY c m s).interactionTimeout = some s.nextTimerId) ∧
    (onWheel 200 true false
        { s with targetCameraDistance := 60 }).targetCameraDistance = 70 := by
  refine ⟨rfl, ?_, ?_⟩
  · intro h
    have hc : (!c && !m) = false := by cases c <;> cases m <;> simp_all
    simp [onWheel, hc]
  · simp [onWheel]
    norm_num [min_def, max_def]

/-- Witness for C6: a wheel with Ctrl held, `deltaY = 200`, from the
initial state (`targetCameraDistance = 60`) sets `isUserInteracting` and
yields `targetCameraDistance = 70`. -/
theorem onWheel_spec_witness :
    (true || false) = true ∧
    (onWheel 200 true false initialState).isUserInteracting = true ∧
    (onWheel 200 true false initialState).targetCameraDistance = 70 := by
  have h := (onWheel_spec initialState 200 true false).2.1 rfl
  refine ⟨rfl, h.1, ?_⟩
  rw [h.2.1]
  norm_num [initialState, min_def, max_def]

/-- C7: a mouse move while not dragging leaves the state unchanged; while
dragging, with deltas `(dx, dy)` from the last recorded pointer position,
it sets `cameraTheta` to `theta - dx * 0.005`, `cameraPhi` to
`clamp(phi + dy * 0.003, 0.1, 1.4)`, recomputes the camera position
immediately from the new angles, and stores the new pointer position. -/
theorem onMouseMove_spec (s : ControllerState) (x y : ℚ) :
    (s.isDragging = false → onMouseMove x y s = s) ∧
    (s.isDragging = true →
      (onMouseMove x y s).cameraTheta =
        s.cameraTheta - (x - s.previousMouseX) * (5/1000) ∧
      (onMouseMove x y s).cameraPhi =
        clampPhi (s.cameraPhi + (y - s.previousMouseY) * (3/1000)) ∧
      (onMouseMove x y s).cameraComputedFrom =
        ((onMouseMove x y s).cameraTheta, (onMouseMove x y s).cameraPhi,
          s.currentCameraDistance) ∧
      (onMouseMove x y s).previousMouseX = x ∧
      (onMouseMove x y s).previousMouseY = y) := by
  constructor
  · intro h; simp [onMouseMove, h]
  · intro h; simp [onMouseMove, h, updateCameraPositionState, clampPhi]

/-- Witness for C7: a drag from `theta = 0` with previous pointer at
`(0, 0)` moving to `(100, 0)` (so `dx = 100`, `dy = 0`) yields
`cameraTheta = -0.5`. -/
theorem onMouseMove_spec_witness :
    ({ initialState with isDragging := true } : ControllerState).isDragging = true ∧
    (onMouseMove 100 0
        { initialState with isDragging := true }).cameraTheta = -(1/2) := by
  have h := (onMouseMove_spec { initialState with isDragging := true } 100 0).2 rfl
  refine ⟨rfl, ?_⟩
  rw [h.1]
  norm_num [initialState]

/-- The clamp `max 0.1 (min 1.4 v)` always lands in [0.1, 1.4]. -/
theorem clampPhi_mem (v : ℚ) : 1/10 ≤ clampPhi v ∧ clampPhi v ≤ 14/10 := by
  refine ⟨le_max_left _ _, max_le (by norm_num) (min_le_left _ _)⟩

/-- Every transition either leaves `cameraPhi` unchanged or sets it to a
clamped value: the two drag-move handlers are the only writers of
`cameraPhi`, and both clamp. -/
theorem step_phi_cases (e : Event) (s : ControllerState) :
    (step e s).cameraPhi = s.cameraPhi ∨ ∃ v, (step e s).cameraPhi = clampPhi v := by
  cases e with
  | mouseDown x y => simp only [step]; split <;> exact Or.inl rfl
  | mouseMove x y =>
      simp only [step]
      split
      · simp only [onMouseMove]
        split
        · exact Or.inl rfl
        · exact Or.inr ⟨_, rfl⟩
      · exact Or.inl rfl
  | mouseUp => simp only [step]; split <;> exact Or.inl rfl
  | wheel d c m =>
      simp only [step]
      split
      · simp only [onWheel]; split <;> exact Or.inl rfl
      · exact Or.inl rfl
  | touchStart n x y =>
      simp only [step]
      split
      · simp only [onTouchStart]; split <;> exact Or.inl rfl
      · exact Or.inl rfl
  | touchMove n x y =>
      simp only [step]
      split
      · simp only [onTouchMove]
        split
        · exact Or.inl rfl
        · exact Or.inr ⟨_, rfl⟩
      · exact Or.inl rfl
  | touchEnd => simp only [step]; split <;> exact Or.inl rfl
  | setOrbit b => exact Or.inl rfl
  | animateFrame =>
      simp only [step, animateStep]
      split <;> exact Or.inl rfl
  | timerFire i =>
      simp only [step, fireTimer]
      split
      · split <;> exact Or.inl rfl
      · exact Or.inl rfl
  | timePasses dt => exact Or.inl rfl

/-- One step preserves the `cameraPhi ∈ [0.1, 1.4]` invariant. -/
theorem phi_invariant_step (e : Event) (s : ControllerState)
    (h : 1/10 ≤ s.cameraPhi ∧ s.cameraPhi ≤ 14/10) :
    1/10 ≤ (step e s).cameraPhi ∧ (step e s).cameraPhi ≤ 14/10 := by
  rcases step_phi_cases e s with heq | ⟨v, heq⟩
  · rw [heq]; exact h
  · rw [heq]; exact clampPhi_mem v

/-- C2: starting from the initial state (`cameraPhi = 0.4`), after any
sequence of events `cameraPhi` stays in [0.1, 1.4]; moreover every
transition either leaves `cameraPhi` unchanged or sets it to the clamp
of some value, so the clamp holds regardless of the input delta
magnitude and no other operation changes `cameraPhi`. -/
theorem phi_always_clamped :
    (∀ events : List Event,
      1/10 ≤ (run events initialState).cameraPhi ∧
      (run events initialState).cameraPhi ≤ 14/10) ∧
    (∀ (e : Event) (s : ControllerState),
      (step e s).cameraPhi = s.cameraPhi ∨
      ∃ v, (step e s).cameraPhi = clampPhi v) := by
  constructor
  · intro events
    suffices h : ∀ s, 1/10 ≤ s.cameraPhi ∧ s.cameraPhi ≤ 14/10 →
        1/10 ≤ (run events s).cameraPhi ∧ (run events s).cameraPhi ≤ 14/10 by
      exact h initialState (by norm_num [initialState])
    induction events with
    | nil => intro s hs; exact hs
    | cons e es ih =>
        intro s hs
        exact ih (step e s) (phi_invariant_step e s hs)
  · exact step_phi_cases

/-- C10: after `setOrbitEnabled(false)` the angles are untouched, every
subsequent mouse/touch/wheel event on the canvas is a complete no-op (the
canvas has `pointer-events: none`, so `theta` and `phi` in particular
never change), while the animation frame still smooths the camera
distance and still auto-rotates exactly as before — the flag only gates
user-driven orbit input. -/
theorem orbitDisabled_input_inert (s : ControllerState) (x y deltaY : ℚ)
    (n : Nat) (c m : Bool) :
    (setOrbitEnabled false s).cameraTheta = s.cameraTheta ∧
    (setOrbitEnabled false s).cameraPhi = s.cameraPhi ∧
    step (Event.mouseDown x y) (setOrbitEnabled false s) = setOrbitEnabled false s ∧
    step (Event.mouseMove x y) (setOrbitEnabled false s) = setOrbitEnabled false s ∧
    step Event.mouseUp (setOrbitEnabled false s) = setOrbitEnabled false s ∧
    step (Event.wheel deltaY c m) (setOrbitEnabled false s) = setOrbitEnabled false s ∧
    step (Event.touchStart n x y) (setOrbitEnabled false s) = setOrbitEnabled false s ∧
    step (Event.touchMove n x y) (setOrbitEnabled false s) = setOrbitEnabled false s ∧
    step Event.touchEnd (setOrbitEnabled false s) = setOrbitEnabled false s ∧
    (step Event.animateFrame (setOrbitEnabled false s)).currentCameraDistance =
      s.currentCameraDistance
        + (s.targetCameraDistance - s.currentCameraDistance) * (8/100) ∧
    (step Event.animateFrame (setOrbitEnabled false s)).cameraTheta =
      (if s.isUserInteracting then s.cameraTheta else s.cameraTheta + 2/1000) := by
  refine ⟨rfl, rfl, ?_, ?_, ?_, ?_, ?_, ?_, ?_, ?_, ?_⟩ <;>
    simp only [step, setOrbitEnabled, animateStep, updateCameraPositionState] <;>
    first
      | rfl
      | (cases hI : s.isUserInteracting <;> simp [hI])

/-- C4 counterexample: the claim that every release leaves exactly one
pending timer (timers never stack) is false. From the initial state, a
modifier-wheel schedules a cooldown; a two-finger touch start is a
complete no-op in `onTouchStart` (so it cancels nothing); the following
`onTouchEnd` schedules a second cooldown WITHOUT calling `clearTimeout`
first — after this release TWO timers are pending. -/
theorem timers_stack_counterexample :
    (run [Event.wheel 100 true false, Event.touchStart 2 0 0, Event.touchEnd]
        initialState).pendingTimers.length = 2 := by
  decide

/-- C4 (amended): each interaction-start event (mouse down, single-touch
start, modifier-held wheel) cancels only the timer referenced by the
stored `interactionTimeout` handle; mouse up / mouse leave and
modifier-wheel cancel the referenced timer and schedule exactly one new
one; touch end schedules one new timer without cancelling anything, so
pending cooldown timers can stack. -/
theorem timer_slot_effects (s : ControllerState) (x y deltaY : ℚ)
    (h : s.orbitEnabled = true) :
    (step (Event.mouseDown x y) s).pendingTimers =
      clearTimeoutJs s.interactionTimeout s.pendingTimers ∧
    (step (Event.touchStart 1 x y) s).pendingTimers =
      clearTimeoutJs s.interactionTimeout s.pendingTimers ∧
    (step (Event.wheel deltaY true false) s).pendingTimers =
      clearTimeoutJs s.interactionTimeout s.pendingTimers
        ++ [⟨s.nextTimerId, s.now⟩] ∧
    (step Event.mouseUp s).pendingTimers =
      clearTimeoutJs s.interactionTimeout s.pendingTimers
        ++ [⟨s.nextTimerId, s.now⟩] ∧
    (step Event.touchEnd s).pendingTimers =
      s.pendingTimers ++ [⟨s.nextTimerId, s.now⟩] := by
  refine ⟨?_, ?_, ?_, ?_, ?_⟩ <;>
    simp [step, h, onMouseDown, onTouchStart, onWheel, onMouseUp, onTouchEnd]

/-- Witness for C4 (amended) at the initial state: orbit is enabled, and
a touch end appends a new timer without cancelling. -/
theorem timer_slot_effects_witness :
    initialState.orbitEnabled = true ∧
    (step Event.touchEnd initialState).pendingTimers =
      initialState.pendingTimers
        ++ [⟨initialState.nextTimerId, initialState.now⟩] :=
  ⟨rfl, (timer_slot_effects initialState 0 0 0 rfl).2.2.2.2⟩

/-- `fireTimer` changes `isUserInteracting` only if the fired id is a
pending timer that is due (scheduled at least 2000 ms earlier). -/
theorem fireTimer_change_has_due_entry (i : Nat) (s : ControllerState)
    (h : (fireTimer i s).isUserInteracting ≠ s.isUserInteracting) :
    ∃ en ∈ s.pendingTimers, en.id = i ∧ en.scheduledAt + 2000 ≤ s.now := by
  cases hfind : s.pendingTimers.find? (fun en => en.id == i) with
  | none =>
      exfalso
      have hs : fireTimer i s = s := by
        unfold fireTimer; rw [hfind]
      rw [hs] at h
      exact h rfl
  | some en =>
      by_cases hdue : en.scheduledAt + 2000 ≤ s.now
      · refine ⟨en, List.mem_of_find?_eq_some hfind, ?_, hdue⟩
        simpa using List.find?_some hfind
      · exfalso
        have hs : fireTimer i s = s := by
          unfold fireTimer; rw [hfind]; exact if_neg hdue
        rw [hs] at h
        exact h rfl

/-- Every transition except a timer firing either preserves
`isUserInteracting` or sets it to `true`: no handler ever writes `false`
to the flag directly. -/
theorem step_interacting_cases (e : Event) (s : ControllerState) :
    (step e s).isUserInteracting = s.isUserInteracting ∨
    (step e s).isUserInteracting = true ∨
    ∃ i, e = Event.timerFire i := by
  cases e with
  | mouseDown x y =>
      simp only [step]; split
      · exact Or.inr (Or.inl rfl)
      · exact Or.inl rfl
  | mouseMove x y =>
      simp only [step]
      split
      · simp only [onMouseMove]; split <;> exact Or.inl rfl
      · exact Or.inl rfl
  | mouseUp => simp only [step]; split <;> exact Or.inl rfl
  | wheel d c m =>
      simp only [step]
      split
      · simp only [onWheel]; split
        · exact Or.inl rfl
        · exact Or.inr (Or.inl rfl)
      · exact Or.inl rfl
  | touchStart n x y =>
      simp only [step]
      split
      · simp only [onTouchStart]; split
        · exact Or.inr (Or.inl rfl)
        · exact Or.inl rfl
      · exact Or.inl rfl
  | touchMove n x y =>
      simp only [step]
      split
      · simp only [onTouchMove]; split <;> exact Or.inl rfl
      · exact Or.inl rfl
  | touchEnd => simp only [step]; split <;> exact Or.inl rfl
  | setOrbit b => exact Or.inl rfl
  | animateFrame =>
      simp only [step, animateStep]
      split <;> exact Or.inl rfl
  | timerFire i => exact Or.inr (Or.inr ⟨i, rfl⟩)
  | timePasses dt => exact Or.inl rfl

/-- C5 counterexample: the claimed invariant "`isDragging = true` implies
`isUserInteracting = true`" is false in a reachable state. A mouse down
starts a drag; a modifier-wheel during the drag schedules a 2000 ms
cooldown; 2000 ms later — with the drag still in progress — that timer
fires and sets `isUserInteracting = false` while `isDragging` is still
`true`. -/
theorem drag_without_interacting_counterexample :
    (run [Event.mouseDown 0 0, Event.wheel 100 true false,
          Event.timePasses 2000, Event.timerFire 0] initialState).isDragging = true ∧
    (run [Event.mouseDown 0 0, Event.wheel 100 true false,
          Event.timePasses 2000, Event.timerFire 0]
        initialState).isUserInteracting = false := by
  constructor <;> decide

/-- C5 (amended): `isUserInteracting` transitions from `true` to `false`
only when a pending cooldown timer fires, at least 2000 ms after it was
scheduled; no input handler ever clears the flag. (A modifier-wheel
during a drag schedules such a timer, and touch end does not cancel
previous timers, so a due timer can fire mid-drag and `isDragging` does
not imply `isUserInteracting`.) -/
theorem interacting_false_only_by_timer (s : ControllerState) (e : Event)
    (h1 : s.isUserInteracting = true) (h2 : (step e s).isUserInteracting = false) :
    ∃ i, e = Event.timerFire i ∧
      ∃ en ∈ s.pendingTimers, en.id = i ∧ en.scheduledAt + 2000 ≤ s.now := by
  rcases step_interacting_cases e s with h | h | ⟨i, rfl⟩
  · rw [h, h1] at h2; exact Bool.noConfusion h2
  · rw [h] at h2; exact Bool.noConfusion h2
  · refine ⟨i, rfl, ?_⟩
    apply fireTimer_change_has_due_entry
    intro hc
    have hc' : (step (Event.timerFire i) s).isUserInteracting = s.isUserInteracting := hc
    rw [hc', h1] at h2
    exact Bool.noConfusion h2

/-- Witness for C5 (amended): in a state with `isUserInteracting = true`,
a pending timer scheduled at time 0 and the clock at 2000 ms, firing
timer 0 clears the flag, and the theorem exhibits the due entry. -/
theorem interacting_false_only_by_timer_witness :
    ({ initialState with
        isUserInteracting := true
        pendingTimers := [⟨0, 0⟩]
        now := 2000 } : ControllerState).isUserInteracting = true ∧
    (step (Event.timerFire 0)
        { initialState with
          isUserInteracting := true
          pendingTimers := [⟨0, 0⟩]
          now := 2000 }).isUserInteracting = false ∧
    (∃ i, Event.timerFire 0 = Event.timerFire i ∧
      ∃ en ∈ ({ initialState with
          isUserInteracting := true
          pendingTimers := [⟨0, 0⟩]
          now := 2000 } : ControllerState).pendingTimers,
        en.id = i ∧ en.scheduledAt + 2000 ≤
          ({ initialState with
              isUserInteracting := true
              pendingTimers := [⟨0, 0⟩]
              now := 2000 } : ControllerState).now) :=
  ⟨rfl, by decide,
   interacting_false_only_by_timer
     { initialState with
       isUserInteracting := true
       pendingTimers := [⟨0, 0⟩]
       now := 2000 }
     (Event.timerFire 0) rfl (by decide)⟩

/-- C8: for every stream of `Math.random()` draws (each in [0, 1)), the
fallback generator produces exactly 10000 points, and every point's
distance from the vertical (y) axis equals its generated radius and lies
within the configured band [5, 30]. -/
theorem createFallbackPointCloud_spec (rand : Nat → ℝ)
    (h : ∀ n, 0 ≤ rand n ∧ rand n < 1) :
    (createFallbackPointCloud rand).length = 10000 ∧
    ∀ p ∈ createFallbackPointCloud rand,
      axisDistance p = p.radius ∧ 5 ≤ axisDistance p ∧ axisDistance p ≤ 30 := by
  constructor
  · simp [createFallbackPointCloud]
  · intro p hp
    simp only [createFallbackPointCloud, List.mem_map] at hp
    obtain ⟨i, _, rfl⟩ := hp
    have h0 := (h (3 * i + 1)).1
    have h1 := (h (3 * i + 1)).2
    have hr0 : (0:ℝ) ≤ 5 + rand (3 * i + 1) * 25 := by nlinarith
    have hax : axisDistance (fallbackPoint rand i) = 5 + rand (3 * i + 1) * 25 := by
      simp only [axisDistance, fallbackPoint]
      have hsq : (Real.cos (rand (3 * i) * Real.pi * 2) * (5 + rand (3 * i + 1) * 25)) ^ 2
          + (Real.sin (rand (3 * i) * Real.pi * 2) * (5 + rand (3 * i + 1) * 25)) ^ 2
          = (5 + rand (3 * i + 1) * 25) ^ 2 := by
        have hsc := Real.sin_sq_add_cos_sq (rand (3 * i) * Real.pi * 2)
        calc (Real.cos (rand (3 * i) * Real.pi * 2) * (5 + rand (3 * i + 1) * 25)) ^ 2
              + (Real.sin (rand (3 * i) * Real.pi * 2) * (5 + rand (3 * i + 1) * 25)) ^ 2
            = (Real.sin (rand (3 * i) * Real.pi * 2) ^ 2
                + Real.cos (rand (3 * i) * Real.pi * 2) ^ 2)
                * (5 + rand (3 * i + 1) * 25) ^ 2 := by ring
          _ = (5 + rand (3 * i + 1) * 25) ^ 2 := by rw [hsc, one_mul]
      rw [hsq, Real.sqrt_sq hr0]
    have hrad : (fallbackPoint rand i).radius = 5 + rand (3 * i + 1) * 25 := rfl
    refine ⟨by rw [hax, hrad], ?_, ?_⟩
    · rw [hax]; linarith
    · rw [hax]; linarith

/-- Witness for C8: the zero stream is a valid randomness source, and the
generator's contract holds for it. -/
theorem createFallbackPointCloud_spec_witness :
    (∀ n : Nat, 0 ≤ (fun _ => (0:ℝ)) n ∧ (fun _ => (0:ℝ)) n < 1) ∧
    ((createFallbackPointCloud (fun _ => (0:ℝ))).length = 10000 ∧
     ∀ p ∈ createFallbackPointCloud (fun _ => (0:ℝ)),
       axisDistance p = p.radius ∧ 5 ≤ axisDistance p ∧ axisDistance p ≤ 30) :=
  ⟨fun _ => by norm_num,
   createFallbackPointCloud_spec (fun _ => (0:ℝ)) (fun _ => by norm_num)⟩

/-- C9: with the canvas element absent, `initThreeScene` is a complete
no-op — it changes nothing, and starting from the uninitialized module it
constructs no scene, camera or renderer, starts no animation loop,
requests no asset and registers no listener; a subsequent
`destroyThreeScene` (with or without a canvas present) is safe and leaves
the uninitialized state unchanged. -/
theorem init_missing_canvas_noop (r : SceneResources) (b : Bool) :
    initThreeScene false r = r ∧
    (initThreeScene false emptyResources).sceneConstructed = false ∧
    (initThreeScene false emptyResources).cameraConstructed = false ∧
    (initThreeScene false emptyResources).rendererConstructed = false ∧
    (initThreeScene false emptyResources).animationRunning = false ∧
    (initThreeScene false emptyResources).canvasListenersRegistered = false ∧
    (initThreeScene false emptyResources).windowListenerRegistered = false ∧
    (initThreeScene false emptyResources).loadRequested = false ∧
    destroyThreeScene b emptyResources initialState = (emptyResources, initialState) := by
  refine ⟨rfl, rfl, rfl, rfl, rfl, rfl, rfl, rfl, ?_⟩
  cases b <;> rfl

end ThreeScene
